import Mathlib

/-!
Verification of the streaming per-signal anomaly detector of
`docker/anomaly-detection/src/detector.py` (the core logic of the
IPC-Platform-Engineering fleet), against its design specification.

Modelling conventions:
* Python `float` arithmetic is modelled by exact real arithmetic (`ℝ`);
  `numpy.mean` / `numpy.std` become their mathematical definitions.
* The per-signal history dict (`self.history`) is modelled as an ordered
  association list from signal names to windows.
* `collections.deque(maxlen=N)` is modelled as a `List` with an explicit
  bounded-append operation `push`.
* The `add_sample` return value `(is_anomaly, z_score, mean)` —
  `(None, None, None)` in the insufficient-history case — is modelled as
  `Option (Bool × ℝ × ℝ)`, `none` standing for the all-`None` triple
  (the spec's `Insufficient` classification), `some (false, z, m)` for
  `Normal` and `some (true, z, m)` for `Anomalous`.
-/

namespace IPC

open Classical

/-- `collections.deque(maxlen=maxlen).append v` on current contents `w`:
if the deque is not yet full the value is appended, otherwise the oldest
element is evicted first. -/
def push {α : Type} (maxlen : ℕ) (w : List α) (v : α) : List α :=
  if w.length < maxlen then w ++ [v] else w.tail ++ [v]

/-- `numpy.mean` over the array of window values (detector.py line 75). -/
noncomputable def npMean (l : List ℝ) : ℝ := l.sum / l.length

/-- `numpy.std` over the array of window values (detector.py line 76):
the square root of the mean of the squared deviations (population
standard deviation). -/
noncomputable def npStd (l : List ℝ) : ℝ :=
  Real.sqrt (npMean (l.map (fun v => (v - npMean l) ^ 2)))

/-- Mean as the specification words it (§4.2): `sum(values) / count`. -/
noncomputable def specMean (l : List ℝ) : ℝ := l.sum / l.length

/-- Population standard deviation as the specification words it (§4.2):
`sqrt(sum((v - mean)^2 for v in values) / count)`. -/
noncomputable def specStd (l : List ℝ) : ℝ :=
  Real.sqrt ((l.map (fun v => (v - specMean l) ^ 2)).sum / l.length)

/-- Look up a signal's window in the history association list
(Python dict read `self.history[tag]` / membership test `tag in self.history`). -/
def lookupTag : List (String × List ℝ) → String → Option (List ℝ)
  | [], _ => none
  | (k, w) :: rest, t => if k = t then some w else lookupTag rest t

/-- Write a signal's window in the history association list
(Python dict write `self.history[tag] = ...`). -/
def setTag : List (String × List ℝ) → String → List ℝ → List (String × List ℝ)
  | [], t, w => [(t, w)]
  | (k, v) :: rest, t, w => if k = t then (t, w) :: rest else (k, v) :: setTag rest t w

/-- State of `AnomalyDetector` (detector.py lines 59-63): configured window
size and z-score threshold, plus the lazily populated per-signal history. -/
structure AnomalyDetector where
  window_size : ℕ
  threshold : ℝ
  history : List (String × List ℝ)

/-- The window currently stored for `tag`, the empty window if `tag` is
previously unseen. -/
def windowOf (d : AnomalyDetector) (tag : String) : List ℝ :=
  (lookupTag d.history tag).getD []

/-- The post-insertion window of `tag` after feeding `value`: the stored
window with `value` pushed into it under the configured capacity. -/
def postWindow (d : AnomalyDetector) (tag : String) (value : ℝ) : List ℝ :=
  push d.window_size (windowOf d tag) value

/-- History after the lazy-creation step of `add_sample` (detector.py lines
66-67): if `tag` is previously unseen an empty window is stored for it
first. -/
def histInit (d : AnomalyDetector) (tag : String) : List (String × List ℝ) :=
  if (lookupTag d.history tag).isNone then setTag d.history tag [] else d.history

/-- `AnomalyDetector.add_sample` (detector.py lines 65-84): create the
window on first sight of `tag`, append `value` (deque eviction applies),
gate on `window_size // 2` samples, otherwise compute the baseline over the
post-insertion window and classify by z-score. Returns the updated detector
state together with the `(is_anomaly, z_score, mean)` triple. -/
noncomputable def add_sample (d : AnomalyDetector) (tag : String) (value : ℝ) :
    AnomalyDetector × Option (Bool × ℝ × ℝ) :=
  let h0 := if (lookupTag d.history tag).isNone then setTag d.history tag [] else d.history
  let w := push d.window_size ((lookupTag h0 tag).getD []) value
  let d' : AnomalyDetector := ⟨d.window_size, d.threshold, setTag h0 tag w⟩
  if w.length < d.window_size / 2 then
    (d', none)
  else
    let mean := npMean w
    let std := npStd w
    if std = 0 then
      (d', some (false, 0, mean))
    else
      let z_score := |value - mean| / std
      let is_anomaly := decide (z_score > d.threshold)
      (d', some (is_anomaly, z_score, mean))

/-! ### Model of the polling loop (`main`, detector.py lines 123-177) -/

/-- Python's `round` on reals: round half to even (banker's rounding).
The loop only uses it to trim payload fields to 3 resp. 2 decimal places;
no claim depends on the tie-breaking direction. -/
noncomputable def pyRound (x : ℝ) : ℤ :=
  if x - ⌊x⌋ < 1 / 2 then ⌊x⌋
  else if 1 / 2 < x - ⌊x⌋ then ⌊x⌋ + 1
  else if Even ⌊x⌋ then ⌊x⌋ else ⌊x⌋ + 1

/-- Python's `round(x, ndigits)` (detector.py lines 143-145). -/
noncomputable def roundTo (ndigits : ℕ) (x : ℝ) : ℝ :=
  (pyRound (x * 10 ^ ndigits) : ℝ) / 10 ^ ndigits

/-- One entry of the alert payload's `anomalies` list (detector.py lines
141-147). -/
structure AnomalyInfo where
  tag : String
  value : ℝ
  baseline : ℝ
  deviation : ℝ
  threshold : ℝ

/-- The alert payload handed to the alert sink (detector.py lines 160-168). -/
structure Alert where
  messageType : String
  deviceId : String
  timestamp : String
  anomalyCount : ℕ
  totalAnomalies : ℕ
  anomalies : List AnomalyInfo
  severity : String

/-- Static configuration of the polling loop: the device identity and
whether an alert-sink client was configured (`iot_client` being non-`None`,
detector.py lines 97-106). -/
structure LoopConfig where
  deviceId : String
  hasSink : Bool

/-- Per-node body of one polling cycle (detector.py lines 131-156). Each
monitored node yields either `none` (the fetch raised — it is recorded in
the error log and the node is skipped) or `some value`, which is fed to
`add_sample`; each `Anomalous` result increments the running anomaly count
and contributes an `AnomalyInfo` entry. Returns the updated detector, the
updated running count, this cycle's anomaly batch, and the tags whose fetch
failed (the logged errors), each in arrival order. -/
noncomputable def processFetches (d : AnomalyDetector) (count : ℕ) :
    List (String × Option ℝ) → AnomalyDetector × ℕ × List AnomalyInfo × List String
  | [] => (d, count, [], [])
  | (tag, none) :: rest =>
      let r := processFetches d count rest
      (r.1, r.2.1, r.2.2.1, tag :: r.2.2.2)
  | (tag, some value) :: rest =>
      let s := add_sample d tag value
      match s.2 with
      | none => processFetches s.1 count rest
      | some (is_anomaly, z_score, baseline) =>
          if is_anomaly then
            let r := processFetches s.1 (count + 1) rest
            (r.1, r.2.1,
              ⟨tag, roundTo 3 value, roundTo 3 baseline, roundTo 2 z_score, d.threshold⟩
                :: r.2.2.1,
              r.2.2.2)
          else
            processFetches s.1 count rest

/-- One polling cycle (detector.py lines 125-177): process all fetches,
then, when the batch is non-empty and a sink client exists, build the alert
payload exactly as lines 160-168 do. Returns the updated detector, the
updated running anomaly count, and the payload handed to the sink (if any). -/
noncomputable def runCycle (cfg : LoopConfig) (d : AnomalyDetector) (count : ℕ)
    (timestamp : String) (fetches : List (String × Option ℝ)) :
    AnomalyDetector × ℕ × Option Alert :=
  let r := processFetches d count fetches
  if !r.2.2.1.isEmpty && cfg.hasSink then
    (r.1, r.2.1, some
      { messageType := "anomalyAlert"
        deviceId := cfg.deviceId
        timestamp := timestamp
        anomalyCount := r.2.2.1.length
        totalAnomalies := r.2.1
        anomalies := r.2.2.1
        severity := if r.2.2.1.length < 2 then "warning" else "critical" })
  else
    (r.1, r.2.1, none)

/-- The whole polling loop run over a finite trace of cycles, each given by
its cycle timestamp and its fetch outcomes. Returns the final state and the
alert payloads handed to the sink, in emission order. -/
noncomputable def runLoop (cfg : LoopConfig) :
    AnomalyDetector → ℕ → List (String × List (String × Option ℝ)) →
      AnomalyDetector × ℕ × List Alert
  | d, count, [] => (d, count, [])
  | d, count, (ts, fetches) :: cycles =>
      let r := runCycle cfg d count ts fetches
      let r2 := runLoop cfg r.1 r.2.1 cycles
      (r2.1, r2.2.1, r.2.2.toList ++ r2.2.2)

/-- The successfully fetched signals of a cycle (spec §4.4 step 2). -/
def okFetches (fetches : List (String × Option ℝ)) : List (String × Option ℝ) :=
  fetches.filter (fun p => p.2.isSome)

/-- The signals whose fetch failed in a cycle (spec §4.4 step 1). -/
def failedTags (fetches : List (String × Option ℝ)) : List String :=
  (fetches.filter (fun p => p.2.isNone)).map Prod.fst

/-! ### Concrete instances used by the witnesses -/

/-- A detector with window size 2, threshold 1/2, holding one sample for
signal `"t"`. -/
noncomputable def D1 : AnomalyDetector := ⟨2, 1 / 2, [("t", [0])]⟩

/-- A freshly constructed detector with the source defaults
(`window_size=20`, `threshold=2.5`). -/
noncomputable def D20 : AnomalyDetector := ⟨20, 5 / 2, []⟩

/-- A detector with window size 4 whose window for `"t"` is flat. -/
noncomputable def D3 : AnomalyDetector := ⟨4, 5 / 2, [("t", [5, 5, 5])]⟩

/-- An empty detector with window size 2 (so `window_size // 2 = 1`). -/
noncomputable def D9 : AnomalyDetector := ⟨2, 5 / 2, []⟩

/-- A detector tracking two signals `"a"` and `"b"`. -/
noncomputable def D10 : AnomalyDetector := ⟨2, 1, [("a", [1]), ("b", [2])]⟩

/-- A loop configuration with a configured alert sink. -/
def cfg1 : LoopConfig := ⟨"device-1", true⟩

/-- The alert payload emitted by `runCycle cfg1 D1 0 "ts" [("t", some 2)]`. -/
noncomputable def A1 : Alert :=
  ⟨"anomalyAlert", "device-1", "ts", 1, 1, [⟨"t", 2, 1, 1, 1 / 2⟩], "warning"⟩

end IPC

namespace IPC

/-! ## Basic lemmas about the embedding -/

@[simp] theorem lookupTag_nil (t : String) : lookupTag [] t = none := rfl

theorem lookupTag_cons (k : String) (w : List ℝ) (rest : List (String × List ℝ))
    (t : String) :
    lookupTag ((k, w) :: rest) t = if k = t then some w else lookupTag rest t := rfl

@[simp] theorem lookupTag_setTag_self (h : List (String × List ℝ)) (t : String)
    (w : List ℝ) : lookupTag (setTag h t w) t = some w := by
  induction h with
  | nil => simp [setTag, lookupTag]
  | cons p rest ih =>
    obtain ⟨k, v⟩ := p
    by_cases hk : k = t
    · simp [setTag, lookupTag, hk]
    · simp [setTag, lookupTag, hk, ih]

theorem lookupTag_setTag_ne (h : List (String × List ℝ)) (t t' : String)
    (w : List ℝ) (hne : t' ≠ t) :
    lookupTag (setTag h t w) t' = lookupTag h t' := by
  have hne' : t ≠ t' := Ne.symm hne
  induction h with
  | nil => simp [setTag, lookupTag, hne']
  | cons p rest ih =>
    obtain ⟨k, v⟩ := p
    by_cases hk : k = t
    · subst hk
      simp [setTag, lookupTag, hne']
    · simp [setTag, lookupTag, hk, ih]

theorem npMean_eq_specMean (l : List ℝ) : npMean l = specMean l := rfl

theorem npStd_eq_specStd (l : List ℝ) : npStd l = specStd l := by
  unfold npStd specStd npMean specMean
  rw [List.length_map]

/-- The window `add_sample` computes internally is the post-insertion window. -/
theorem add_sample_window (d : AnomalyDetector) (tag : String) (value : ℝ) :
    push d.window_size ((lookupTag (histInit d tag) tag).getD []) value
      = postWindow d tag value := by
  unfold postWindow windowOf histInit
  cases hl : lookupTag d.history tag with
  | none => simp [hl, lookupTag_setTag_self]
  | some w => simp [hl]

/-- Closed-form characterization of `add_sample`: the updated state stores
the post-insertion window for `tag`, and the returned triple is `none`
below the warm-up gate, the flat-signal `Normal` triple when the standard
deviation vanishes, and the z-score classification otherwise. -/
theorem add_sample_eq (d : AnomalyDetector) (tag : String) (value : ℝ) :
    add_sample d tag value =
      (⟨d.window_size, d.threshold, setTag (histInit d tag) tag (postWindow d tag value)⟩,
       if (postWindow d tag value).length < d.window_size / 2 then none
       else if npStd (postWindow d tag value) = 0 then
         some (false, 0, npMean (postWindow d tag value))
       else
         some (decide (|value - npMean (postWindow d tag value)| /
                  npStd (postWindow d tag value) > d.threshold),
           |value - npMean (postWindow d tag value)| / npStd (postWindow d tag value),
           npMean (postWindow d tag value))) := by
  have hw := add_sample_window d tag value
  simp only [add_sample]
  rw [show (if (lookupTag d.history tag).isNone then setTag d.history tag [] else d.history)
        = histInit d tag from rfl]
  rw [hw]
  split_ifs <;> rfl

theorem push_length_pos {α : Type} (maxlen : ℕ) (w : List α) (v : α) :
    0 < (push maxlen w v).length := by
  unfold push
  split <;> simp

/-- Pushing into a not-yet-full window appends; pushing into a full window
evicts the oldest element first. Stated as: folding `push` over the whole
input stream, starting from a window `w` that respects the capacity, leaves
exactly the most recent `maxlen` values. -/
theorem foldl_push_window {α : Type} (maxlen : ℕ) (hm : 1 ≤ maxlen) :
    ∀ (vs : List α) (w : List α), w.length ≤ maxlen →
      List.foldl (push maxlen) w vs = (w ++ vs).drop ((w ++ vs).length - maxlen)
  | [], w, hw => by
      simp [Nat.sub_eq_zero_of_le hw]
  | v :: rest, w, hw => by
      rw [List.foldl_cons]
      by_cases hlt : w.length < maxlen
      · have hstep : push maxlen w v = w ++ [v] := by simp [push, hlt]
        have hlen : (w ++ [v]).length ≤ maxlen := by
          simp
          omega
        rw [hstep, foldl_push_window maxlen hm rest (w ++ [v]) hlen]
        simp [List.append_assoc]
      · have hfull : w.length = maxlen := le_antisymm hw (Nat.not_lt.mp hlt)
        have hwne : w ≠ [] := by
          intro hcon
          rw [hcon] at hfull
          simp at hfull
          omega
        obtain ⟨a, w', rfl⟩ := List.exists_cons_of_ne_nil hwne
        have hmax : w'.length + 1 = maxlen := by simpa using hfull
        have hstep : push maxlen (a :: w') v = w' ++ [v] := by
          simp [push, hlt]
          omega
        have hlen : (w' ++ [v]).length ≤ maxlen := by
          simp
          omega
        rw [hstep, foldl_push_window maxlen hm rest (w' ++ [v]) hlen]
        have h1 : ((w' ++ [v]) ++ rest).length - maxlen = rest.length := by
          simp
          omega
        have h2 : ((a :: w') ++ v :: rest).length - maxlen = rest.length + 1 := by
          simp
          omega
        rw [h1, h2]
        rw [show (a :: w') ++ v :: rest = a :: (w' ++ v :: rest) from rfl,
          List.drop_succ_cons]
        congr 1
        simp

/-! ## The claims -/

/-- Claim C1: for a post-insertion window at or above the warm-up gate with
non-zero population standard deviation, `add_sample` computes the mean and
population standard deviation of the post-insertion window exactly as the
specification's formulas state them, computes `z = |value - mean| / std`,
reports that z-score and mean, and flags `Anomalous` (the `true` flag) if
and only if `z > threshold`. -/
theorem c1_zscore_classification (d : AnomalyDetector) (tag : String) (value : ℝ)
    (h1 : d.window_size / 2 ≤ (postWindow d tag value).length)
    (h2 : specStd (postWindow d tag value) ≠ 0) :
    ∃ b : Bool,
      (add_sample d tag value).2 =
        some (b,
          |value - specMean (postWindow d tag value)| / specStd (postWindow d tag value),
          specMean (postWindow d tag value))
      ∧ (b = true ↔
          |value - specMean (postWindow d tag value)| / specStd (postWindow d tag value)
            > d.threshold) := by
  rw [add_sample_eq]
  simp only [npStd_eq_specStd, npMean_eq_specMean]
  rw [if_neg (Nat.not_lt.2 h1), if_neg h2]
  exact ⟨_, rfl, by simp⟩

theorem postWindow_D1 : postWindow D1 "t" 2 = [0, 2] := by
  norm_num [postWindow, windowOf, D1, lookupTag, push]

theorem specMean_D1w : specMean [0, 2] = 1 := by
  unfold specMean
  norm_num

theorem specStd_D1w : specStd [0, 2] = 1 := by
  unfold specStd specMean
  norm_num

/-- Witness for C1: feeding value `2` to a window-2 detector holding `[0]`
(threshold `1/2`) yields the post-insertion window `[0, 2]`, mean `1`,
standard deviation `1`, z-score `1 > 1/2`, hence `Anomalous`. -/
theorem c1_zscore_classification_witness :
    (add_sample D1 "t" 2).2 = some (true, 1, 1) := by
  obtain ⟨b, hb, hbz⟩ := c1_zscore_classification D1 "t" 2
    (by rw [postWindow_D1]; norm_num [D1])
    (by rw [postWindow_D1, specStd_D1w]; norm_num)
  rw [postWindow_D1, specStd_D1w, specMean_D1w] at hb hbz
  have hbt : b = true := hbz.2 (by norm_num [D1])
  rw [hb, hbt]
  norm_num

/-- Claim C2: when the post-insertion window still holds fewer than
`window_size // 2` samples, `add_sample` returns the all-`None` triple
(`Insufficient`), whatever the magnitude of the new value. -/
theorem c2_insufficient_below_half_window (d : AnomalyDetector) (tag : String)
    (value : ℝ)
    (h : (postWindow d tag value).length < d.window_size / 2) :
    (add_sample d tag value).2 = none := by
  rw [add_sample_eq]
  simp [h]

theorem postWindow_D20 : postWindow D20 "t" 72 = [72] := by
  norm_num [postWindow, windowOf, D20, lookupTag, push]

/-- Witness for C2: the first sample fed to a freshly constructed default
detector (window size 20) is classified `Insufficient`. -/
theorem c2_insufficient_below_half_window_witness :
    (add_sample D20 "t" 72).2 = none := by
  exact c2_insufficient_below_half_window D20 "t" 72
    (by rw [postWindow_D20]; norm_num [D20])

/-- Claim C3: at or above the warm-up gate, a window whose population
standard deviation is exactly `0` is classified `Normal` with z-score
exactly `0` and the window mean; the zero-divisor branch is taken instead
of the division, so no division by zero occurs. -/
theorem c3_flat_signal_normal (d : AnomalyDetector) (tag : String) (value : ℝ)
    (h1 : d.window_size / 2 ≤ (postWindow d tag value).length)
    (h2 : specStd (postWindow d tag value) = 0) :
    (add_sample d tag value).2 = some (false, 0, specMean (postWindow d tag value)) := by
  rw [add_sample_eq]
  simp only [npStd_eq_specStd, npMean_eq_specMean]
  rw [if_neg (Nat.not_lt.2 h1), if_pos h2]

theorem postWindow_D3 : postWindow D3 "t" 5 = [5, 5, 5, 5] := by
  norm_num [postWindow, windowOf, D3, lookupTag, push]

theorem specStd_D3w : specStd [5, 5, 5, 5] = 0 := by
  unfold specStd specMean
  norm_num

theorem specMean_D3w : specMean [5, 5, 5, 5] = 5 := by
  unfold specMean
  norm_num

/-- Witness for C3: a window-4 detector whose window for `"t"` holds four
identical values `5` (at the gate, since `4 // 2 = 2 ≤ 4`) classifies the
sample as `Normal` with z-score `0` and mean `5`. -/
theorem c3_flat_signal_normal_witness :
    (add_sample D3 "t" 5).2 = some (false, 0, 5) := by
  have h := c3_flat_signal_normal D3 "t" 5
    (by rw [postWindow_D3]; norm_num [D3])
    (by rw [postWindow_D3]; exact specStd_D3w)
  rw [postWindow_D3, specMean_D3w] at h
  exact h

/-- Claim C4: for capacity `window_size ≥ 1`, after any sequence of pushes
the window holds `min(total_pushes, window_size)` values, and they are
exactly the most recent `window_size` pushed values in arrival order
(oldest values having been evicted). -/
theorem c4_sliding_window_contents {α : Type} (window_size : ℕ)
    (hws : 1 ≤ window_size) (vs : List α) :
    (List.foldl (push window_size) [] vs).length = min vs.length window_size
    ∧ List.foldl (push window_size) [] vs = vs.drop (vs.length - window_size) := by
  have h := foldl_push_window window_size hws vs [] (by simp)
  simp only [List.nil_append] at h
  refine ⟨?_, h⟩
  rw [h, List.length_drop]
  omega

/-- Witness for C4: pushing `1, 2, 3` through a capacity-2 window leaves
`[2, 3]`, of length `min 3 2 = 2`. -/
theorem c4_sliding_window_contents_witness :
    (List.foldl (push 2) [] [1, 2, 3]).length = min ([1, 2, 3] : List ℕ).length 2
    ∧ List.foldl (push 2) [] [1, 2, 3]
        = ([1, 2, 3] : List ℕ).drop (([1, 2, 3] : List ℕ).length - 2) := by
  exact c4_sliding_window_contents 2 (by norm_num) [1, 2, 3]

theorem npMean_singleton (v : ℝ) : npMean [v] = v := by
  unfold npMean
  norm_num

theorem npStd_singleton (v : ℝ) : npStd [v] = 0 := by
  unfold npStd npMean
  norm_num

/-- Claim C9: with `window_size ≤ 3` (and `window_size ≥ 1` as the spec
requires of every construction), `window_size // 2 ≤ 1`, so the warm-up
gate is satisfied by every non-empty window: `add_sample` never returns the
`Insufficient` triple, and the very first sample of a previously-unseen
signal is evaluated against the singleton window — standard deviation `0` —
hence classified `Normal` with z-score `0` and mean equal to the value
itself. -/
theorem c9_no_warmup_small_window (d : AnomalyDetector) (tag : String) (value : ℝ)
    (h1 : 1 ≤ d.window_size) (h3 : d.window_size ≤ 3) :
    (add_sample d tag value).2 ≠ none
    ∧ (lookupTag d.history tag = none →
        (add_sample d tag value).2 = some (false, 0, value)) := by
  have hgate : ¬ (postWindow d tag value).length < d.window_size / 2 := by
    have hpos := push_length_pos d.window_size (windowOf d tag) value
    unfold postWindow
    omega
  constructor
  · rw [add_sample_eq]
    rw [if_neg hgate]
    split_ifs <;> simp
  · intro hl
    have hpw : postWindow d tag value = [value] := by
      unfold postWindow windowOf
      rw [hl]
      simp [push]
    rw [add_sample_eq, if_neg hgate, hpw, npStd_singleton, npMean_singleton]
    simp

/-- Witness for C9: the very first sample (`7`, signal `"x"`) fed to an
empty window-2 detector is not `Insufficient` but `Normal` with z-score `0`
and mean `7`. -/
theorem c9_no_warmup_small_window_witness :
    (add_sample D9 "x" 7).2 ≠ none ∧ (add_sample D9 "x" 7).2 = some (false, 0, 7) := by
  obtain ⟨hne, hfirst⟩ := c9_no_warmup_small_window D9 "x" 7
    (by norm_num [D9]) (by norm_num [D9])
  exact ⟨hne, hfirst rfl⟩

/-- Claim C10: `add_sample` mutates only the window of the signal it is
given: every other signal's stored window is unchanged, the configured
`window_size` and `threshold` are unchanged, and no signal is ever removed
from the history mapping (every signal with a stored window still has
one). -/
theorem c10_classify_frame (d : AnomalyDetector) (tag : String) (value : ℝ)
    (t' : String) (hne : t' ≠ tag) :
    lookupTag (add_sample d tag value).1.history t' = lookupTag d.history t'
    ∧ (add_sample d tag value).1.window_size = d.window_size
    ∧ (add_sample d tag value).1.threshold = d.threshold
    ∧ ∀ t, (lookupTag d.history t).isSome = true →
        (lookupTag (add_sample d tag value).1.history t).isSome = true := by
  rw [add_sample_eq]
  refine ⟨?_, rfl, rfl, ?_⟩
  · show lookupTag (setTag (histInit d tag) tag (postWindow d tag value)) t'
        = lookupTag d.history t'
    rw [lookupTag_setTag_ne _ _ _ _ hne]
    unfold histInit
    split
    · rw [lookupTag_setTag_ne _ _ _ _ hne]
    · rfl
  · intro t ht
    show (lookupTag (setTag (histInit d tag) tag (postWindow d tag value)) t).isSome = true
    by_cases htt : t = tag
    · subst htt
      rw [lookupTag_setTag_self]
      rfl
    · rw [lookupTag_setTag_ne _ _ _ _ htt]
      unfold histInit
      split
      · rw [lookupTag_setTag_ne _ _ _ _ htt]
        exact ht
      · exact ht

/-- Witness for C10: classifying a sample for `"a"` on a detector tracking
`"a"` and `"b"` leaves `"b"`'s window, the window size and the threshold
unchanged, and `"a"` still has a window afterwards. -/
theorem c10_classify_frame_witness :
    lookupTag (add_sample D10 "a" 3).1.history "b" = lookupTag D10.history "b"
    ∧ (add_sample D10 "a" 3).1.window_size = D10.window_size
    ∧ (add_sample D10 "a" 3).1.threshold = D10.threshold
    ∧ (lookupTag (add_sample D10 "a" 3).1.history "a").isSome = true := by
  obtain ⟨hb, hws, hth, hpr⟩ := c10_classify_frame D10 "a" 3 "b" (by decide)
  exact ⟨hb, hws, hth, hpr "a" (by simp [D10, lookupTag])⟩

/-! ### Lemmas about the polling loop -/

theorem pf_nil (d : AnomalyDetector) (count : ℕ) :
    processFetches d count [] = (d, count, [], []) := rfl

theorem pf_err (d : AnomalyDetector) (count : ℕ) (tag : String)
    (rest : List (String × Option ℝ)) :
    processFetches d count ((tag, none) :: rest)
      = ((processFetches d count rest).1, (processFetches d count rest).2.1,
         (processFetches d count rest).2.2.1, tag :: (processFetches d count rest).2.2.2) :=
  rfl

theorem pf_ok_none (d : AnomalyDetector) (count : ℕ) (tag : String) (value : ℝ)
    (rest : List (String × Option ℝ)) (h : (add_sample d tag value).2 = none) :
    processFetches d count ((tag, some value) :: rest)
      = processFetches (add_sample d tag value).1 count rest := by
  simp only [processFetches]
  rw [h]

theorem pf_ok_norm (d : AnomalyDetector) (count : ℕ) (tag : String) (value : ℝ)
    (z m : ℝ) (rest : List (String × Option ℝ))
    (h : (add_sample d tag value).2 = some (false, z, m)) :
    processFetches d count ((tag, some value) :: rest)
      = processFetches (add_sample d tag value).1 count rest := by
  simp only [processFetches]
  rw [h]
  simp

theorem pf_ok_anom (d : AnomalyDetector) (count : ℕ) (tag : String) (value : ℝ)
    (z m : ℝ) (rest : List (String × Option ℝ))
    (h : (add_sample d tag value).2 = some (true, z, m)) :
    processFetches d count ((tag, some value) :: rest)
      = ((processFetches (add_sample d tag value).1 (count + 1) rest).1,
         (processFetches (add_sample d tag value).1 (count + 1) rest).2.1,
         ⟨tag, roundTo 3 value, roundTo 3 m, roundTo 2 z, d.threshold⟩
           :: (processFetches (add_sample d tag value).1 (count + 1) rest).2.2.1,
         (processFetches (add_sample d tag value).1 (count + 1) rest).2.2.2) := by
  simp only [processFetches]
  rw [h]
  simp

/-- The running anomaly count never decreases within a cycle. -/
theorem pf_count_le (fs : List (String × Option ℝ)) :
    ∀ (d : AnomalyDetector) (count : ℕ), count ≤ (processFetches d count fs).2.1 := by
  induction fs with
  | nil => intro d count; exact le_refl count
  | cons p rest ih =>
    intro d count
    obtain ⟨tag, ov⟩ := p
    cases ov with
    | none =>
      rw [pf_err]
      exact ih d count
    | some v =>
      cases hs : (add_sample d tag v).2 with
      | none =>
        rw [pf_ok_none _ _ _ _ _ hs]
        exact ih _ count
      | some t =>
        obtain ⟨b, z, m⟩ := t
        cases b with
        | false =>
          rw [pf_ok_norm _ _ _ _ _ _ _ hs]
          exact ih _ count
        | true =>
          rw [pf_ok_anom _ _ _ _ _ _ _ hs]
          exact le_trans (Nat.le_succ count) (ih _ (count + 1))

theorem rc_count_eq (cfg : LoopConfig) (d : AnomalyDetector) (count : ℕ)
    (ts : String) (fs : List (String × Option ℝ)) :
    (runCycle cfg d count ts fs).2.1 = (processFetches d count fs).2.1 := by
  simp only [runCycle]
  split <;> rfl

/-- Inversion: the payload a cycle emits is exactly the one lines 160-168
construct. -/
theorem rc_alert_inv (cfg : LoopConfig) (d : AnomalyDetector) (count : ℕ)
    (ts : String) (fs : List (String × Option ℝ)) (a : Alert)
    (h : (runCycle cfg d count ts fs).2.2 = some a) :
    a = { messageType := "anomalyAlert"
          deviceId := cfg.deviceId
          timestamp := ts
          anomalyCount := (processFetches d count fs).2.2.1.length
          totalAnomalies := (processFetches d count fs).2.1
          anomalies := (processFetches d count fs).2.2.1
          severity := if (processFetches d count fs).2.2.1.length < 2 then
            "warning" else "critical" } := by
  simp only [runCycle] at h
  split at h
  · exact (Option.some.inj h).symm
  · simp at h

theorem rl_nil (cfg : LoopConfig) (d : AnomalyDetector) (count : ℕ) :
    runLoop cfg d count [] = (d, count, []) := rfl

theorem rl_cons (cfg : LoopConfig) (d : AnomalyDetector) (count : ℕ) (ts : String)
    (fs : List (String × Option ℝ)) (cycles : List (String × List (String × Option ℝ))) :
    runLoop cfg d count ((ts, fs) :: cycles)
      = ((runLoop cfg (runCycle cfg d count ts fs).1 (runCycle cfg d count ts fs).2.1 cycles).1,
         (runLoop cfg (runCycle cfg d count ts fs).1 (runCycle cfg d count ts fs).2.1 cycles).2.1,
         (runCycle cfg d count ts fs).2.2.toList
           ++ (runLoop cfg (runCycle cfg d count ts fs).1
                (runCycle cfg d count ts fs).2.1 cycles).2.2) :=
  rfl

/-- Every payload emitted from a loop started at running count `count`
reports at least `count` total anomalies. -/
theorem rl_alert_lb (cfg : LoopConfig) (cycles : List (String × List (String × Option ℝ))) :
    ∀ (d : AnomalyDetector) (count : ℕ) (a : Alert),
      a ∈ (runLoop cfg d count cycles).2.2 → count ≤ a.totalAnomalies := by
  induction cycles with
  | nil => intro d count a ha; simp [rl_nil] at ha
  | cons c cycles ih =>
    intro d count a ha
    obtain ⟨ts, fs⟩ := c
    rw [rl_cons] at ha
    rcases List.mem_append.mp ha with hl | hr
    · have hsome : (runCycle cfg d count ts fs).2.2 = some a := by
        cases hrc : (runCycle cfg d count ts fs).2.2 with
        | none => rw [hrc] at hl; simp at hl
        | some b => rw [hrc] at hl; simp at hl; rw [hl]
      have := rc_alert_inv cfg d count ts fs a hsome
      rw [this]
      exact pf_count_le fs d count
    · have h1 : count ≤ (runCycle cfg d count ts fs).2.1 := by
        rw [rc_count_eq]
        exact pf_count_le fs d count
      exact le_trans h1 (ih _ _ a hr)

/-- Claim C6: across one process lifetime, the `totalAnomalies` fields of
the emitted alert payloads, in emission order, are monotonically
non-decreasing. -/
theorem c6_totalAnomalies_monotone (cfg : LoopConfig) (d : AnomalyDetector)
    (count : ℕ) (cycles : List (String × List (String × Option ℝ))) :
    ((runLoop cfg d count cycles).2.2).Pairwise
      (fun p q => p.totalAnomalies ≤ q.totalAnomalies) := by
  induction cycles generalizing d count with
  | nil => simp [rl_nil]
  | cons c cycles ih =>
    obtain ⟨ts, fs⟩ := c
    rw [rl_cons]
    rw [List.pairwise_append]
    refine ⟨?_, ih _ _, ?_⟩
    · cases (runCycle cfg d count ts fs).2.2 <;> simp
    · intro x hx y hy
      have hsome : (runCycle cfg d count ts fs).2.2 = some x := by
        cases hrc : (runCycle cfg d count ts fs).2.2 with
        | none => rw [hrc] at hx; simp at hx
        | some b => rw [hrc] at hx; simp at hx; rw [hx]
      have hx1 : x.totalAnomalies = (processFetches d count fs).2.1 := by
        rw [rc_alert_inv cfg d count ts fs x hsome]
      have hy1 : (runCycle cfg d count ts fs).2.1 ≤ y.totalAnomalies :=
        rl_alert_lb cfg cycles _ _ y hy
      rw [hx1]
      rw [rc_count_eq] at hy1
      exact hy1

/-- Claim C5: every alert payload the polling loop emits has severity
`"critical"` exactly when the cycle's anomaly count is at least `2`, and
severity `"warning"` exactly when it is below `2` (so exactly 2 anomalies
give `"critical"` and exactly 1 gives `"warning"`). -/
theorem c5_alert_severity (cfg : LoopConfig) (d : AnomalyDetector) (count : ℕ)
    (ts : String) (fs : List (String × Option ℝ)) (a : Alert)
    (h : (runCycle cfg d count ts fs).2.2 = some a) :
    (a.severity = "critical" ↔ 2 ≤ a.anomalyCount)
    ∧ (a.severity = "warning" ↔ a.anomalyCount < 2) := by
  rw [rc_alert_inv cfg d count ts fs a h]
  constructor <;> simp only [] <;> split_ifs with hn <;> simp <;> omega

/-- Claim C7: whenever a cycle's anomaly batch is non-empty (and an alert
sink is configured, which the claim presupposes by speaking of the
alert-sink collaborator), the cycle hands the sink an alert payload
carrying the device identity, the cycle timestamp, the per-anomaly detail
list, the anomaly count, the running total anomaly count, and the derived
severity. -/
theorem c7_alert_payload_construction (cfg : LoopConfig) (d : AnomalyDetector)
    (count : ℕ) (ts : String) (fs : List (String × Option ℝ))
    (hsink : cfg.hasSink = true)
    (hne : (processFetches d count fs).2.2.1 ≠ []) :
    (runCycle cfg d count ts fs).2.2 = some
      { messageType := "anomalyAlert"
        deviceId := cfg.deviceId
        timestamp := ts
        anomalyCount := (processFetches d count fs).2.2.1.length
        totalAnomalies := (processFetches d count fs).2.1
        anomalies := (processFetches d count fs).2.2.1
        severity := if (processFetches d count fs).2.2.1.length < 2 then
          "warning" else "critical" } := by
  simp only [runCycle]
  have hcond : (!(processFetches d count fs).2.2.1.isEmpty && cfg.hasSink) = true := by
    simp [hsink, hne]
  rw [if_pos hcond]

/-- `processFetches` treats the head of the batch in steps, so a direct
characterization of a whole cycle against its successful fetches: the
detector state, running count and anomaly batch are those obtained from
the successfully fetched signals alone, and the error log lists exactly
the failed signals. -/
theorem pf_split (fs : List (String × Option ℝ)) :
    ∀ (d : AnomalyDetector) (count : ℕ),
      (processFetches d count fs).1 = (processFetches d count (okFetches fs)).1
      ∧ (processFetches d count fs).2.1 = (processFetches d count (okFetches fs)).2.1
      ∧ (processFetches d count fs).2.2.1 = (processFetches d count (okFetches fs)).2.2.1
      ∧ (processFetches d count fs).2.2.2 = failedTags fs := by
  induction fs with
  | nil => intro d count; exact ⟨rfl, rfl, rfl, rfl⟩
  | cons p rest ih =>
    intro d count
    obtain ⟨tag, ov⟩ := p
    cases ov with
    | none =>
      have hok : okFetches ((tag, none) :: rest) = okFetches rest := by
        simp [okFetches]
      have hfail : failedTags ((tag, none) :: rest) = tag :: failedTags rest := by
        simp [failedTags]
      rw [pf_err, hok, hfail]
      obtain ⟨h1, h2, h3, h4⟩ := ih d count
      exact ⟨h1, h2, h3, by rw [h4]⟩
    | some v =>
      have hok : okFetches ((tag, some v) :: rest) = (tag, some v) :: okFetches rest := by
        simp [okFetches]
      have hfail : failedTags ((tag, some v) :: rest) = failedTags rest := by
        simp [failedTags]
      rw [hok, hfail]
      cases hs : (add_sample d tag v).2 with
      | none =>
        rw [pf_ok_none _ _ _ _ _ hs, pf_ok_none _ _ _ _ _ hs]
        exact ih _ count
      | some t =>
        obtain ⟨b, z, m⟩ := t
        cases b with
        | false =>
          rw [pf_ok_norm _ _ _ _ _ _ _ hs, pf_ok_norm _ _ _ _ _ _ _ hs]
          exact ih _ count
        | true =>
          rw [pf_ok_anom _ _ _ _ _ _ _ hs, pf_ok_anom _ _ _ _ _ _ _ hs]
          obtain ⟨h1, h2, h3, h4⟩ := ih _ (count + 1)
          exact ⟨h1, h2, by rw [h3], h4⟩

/-- Claim C8: a fetch failure is isolated — it is recorded in the error log
and the signal skipped, while the rest of the cycle is unaffected: detector
state, running count, anomaly batch and the emitted payload are exactly
those of the cycle run on the successfully fetched signals alone, and the
failed signals are exactly the logged ones. The loop itself is a total
function of the cycle trace, so the cycle (and the loop) always runs to
completion. -/
theorem c8_fetch_failure_isolated (cfg : LoopConfig) (d : AnomalyDetector)
    (count : ℕ) (ts : String) (fs : List (String × Option ℝ)) :
    (processFetches d count fs).1 = (processFetches d count (okFetches fs)).1
    ∧ (processFetches d count fs).2.1 = (processFetches d count (okFetches fs)).2.1
    ∧ (processFetches d count fs).2.2.1 = (processFetches d count (okFetches fs)).2.2.1
    ∧ (processFetches d count fs).2.2.2 = failedTags fs
    ∧ (runCycle cfg d count ts fs).2.2 = (runCycle cfg d count ts (okFetches fs)).2.2 := by
  obtain ⟨h1, h2, h3, h4⟩ := pf_split fs d count
  refine ⟨h1, h2, h3, h4, ?_⟩
  simp only [runCycle]
  rw [h1, h2, h3]

/-! ### Concrete evaluation of one cycle, for the C5 and C7 witnesses -/

theorem pyRound_intCast (k : ℤ) : pyRound (k : ℝ) = k := by
  unfold pyRound
  rw [Int.floor_intCast]
  norm_num

theorem roundTo_int (n : ℕ) (k : ℤ) : roundTo n (k : ℝ) = k := by
  unfold roundTo
  rw [show (k : ℝ) * 10 ^ n = ((k * 10 ^ n : ℤ) : ℝ) by push_cast; ring]
  rw [pyRound_intCast]
  push_cast
  rw [mul_div_assoc, div_self (by positivity), mul_one]

theorem roundTo_3_2 : roundTo 3 (2 : ℝ) = 2 := by
  rw [show (2 : ℝ) = ((2 : ℤ) : ℝ) by norm_num, roundTo_int]

theorem roundTo_3_1 : roundTo 3 (1 : ℝ) = 1 := by
  rw [show (1 : ℝ) = ((1 : ℤ) : ℝ) by norm_num, roundTo_int]

theorem roundTo_2_1 : roundTo 2 (1 : ℝ) = 1 := by
  rw [show (1 : ℝ) = ((1 : ℤ) : ℝ) by norm_num, roundTo_int]

theorem npMean_D1w : npMean [0, 2] = 1 := by
  unfold npMean
  norm_num

theorem npStd_D1w : npStd [0, 2] = 1 := by
  unfold npStd npMean
  norm_num

theorem add_sample_D1_eval :
    add_sample D1 "t" 2 = (⟨2, 1 / 2, [("t", [0, 2])]⟩, some (true, 1, 1)) := by
  unfold add_sample D1
  simp only [lookupTag, setTag, push]
  norm_num [npStd_D1w, npMean_D1w]

theorem pf_D1_eval :
    processFetches D1 0 [("t", some 2)]
      = (⟨2, 1 / 2, [("t", [0, 2])]⟩, 1, [⟨"t", 2, 1, 1, 1 / 2⟩], []) := by
  have h2 : (add_sample D1 "t" 2).2 = some (true, 1, 1) := by rw [add_sample_D1_eval]
  rw [pf_ok_anom _ _ _ _ _ _ _ h2]
  rw [add_sample_D1_eval]
  simp only [pf_nil]
  norm_num [roundTo_3_2, roundTo_3_1, roundTo_2_1, D1]

theorem rc_D1_eval :
    runCycle cfg1 D1 0 "ts" [("t", some 2)]
      = (⟨2, 1 / 2, [("t", [0, 2])]⟩, 1, some A1) := by
  simp only [runCycle, pf_D1_eval]
  norm_num [cfg1, A1]

/-- Witness for C5: the concrete cycle fetching value `2` for signal `"t"`
produces exactly one anomaly, and the emitted payload `A1` indeed has
severity `"warning"`, its anomaly count `1` being below `2`. -/
theorem c5_alert_severity_witness :
    (A1.severity = "critical" ↔ 2 ≤ A1.anomalyCount)
    ∧ (A1.severity = "warning" ↔ A1.anomalyCount < 2) :=
  c5_alert_severity cfg1 D1 0 "ts" [("t", some 2)] A1 (by rw [rc_D1_eval])

/-- Witness for C7: the same concrete cycle has a non-empty anomaly batch
and hands the sink the payload `A1`, carrying the device identity, the
cycle timestamp, the detail list, the counts and the derived severity. -/
theorem c7_alert_payload_construction_witness :
    (runCycle cfg1 D1 0 "ts" [("t", some 2)]).2.2 = some A1 := by
  have h := c7_alert_payload_construction cfg1 D1 0 "ts" [("t", some 2)] rfl
    (by rw [pf_D1_eval]; simp)
  rw [pf_D1_eval] at h
  rw [h]
  norm_num [A1, cfg1]

end IPC
